import Mathlib

/-!
# Verification of the instaloader HTTP wrapper

Shallow embedding of `src/instaloader/instaloader_api.py` (class
`InstagramLoader`) and `src/server/app.py` (the Flask handlers), together
with theorems settling the specification claims about the session and
credential lifecycle layer.

The external `instaloader` library and `browser_cookie3` are collaborators:
their behaviour at the interface boundary is a parameter (`Env`) of the
embedding.  The wrapper's own control flow — which exceptions each call
site catches, in what order state is mutated, which file paths are used —
is translated from the Python source.

Python exceptions are modelled by the `PyExc` type; a computation that can
let an exception escape to the caller returns
`Except (PyExc × ServerState) (α × ServerState)` (state changes made before
the raise survive, as in Python, where the module-level `loader` object and
the filesystem persist across a request that dies with a traceback).
-/

/-- Exceptions of the external instaloader / Python world that the wrapper's
`except` clauses discriminate on.  Each carries its `str(e)` message. -/
inductive PyExc where
  /-- `BadCredentialsException` (an `InstaloaderException`). -/
  | badCredentials (m : String)
  /-- `TwoFactorAuthRequiredException` (an `InstaloaderException`). -/
  | twoFactorRequired (m : String)
  /-- `LoginException` proper (an `InstaloaderException`). -/
  | loginExc (m : String)
  /-- `ConnectionException`: an `InstaloaderException` that is *not* one of
  the three classes caught by `InstagramLoader.login`. -/
  | connectionExc (m : String)
  /-- `InvalidArgumentException` (an `InstaloaderException`). -/
  | invalidArgument (m : String)
  /-- `ProfileNotExistsException` (an `InstaloaderException`). -/
  | profileNotExists (m : String)
  /-- Any other `InstaloaderException`. -/
  | instaloaderOther (m : String)
  /-- An exception outside the `InstaloaderException` hierarchy
  (e.g. `OSError`). -/
  | otherExc (m : String)
  /-- `AttributeError`, outside the `InstaloaderException` hierarchy: raised
  by attribute lookup on an object lacking the attribute, as at the four
  `loader.save_session_to_file` / `loader.load_session_from_file` call
  sites in app.py (`InstagramLoader` defines no such methods). -/
  | attributeError (m : String)
  deriving DecidableEq

/-- Python `str(e)`: the message carried by the exception. -/
def PyExc.str : PyExc → String
  | .badCredentials m => m
  | .twoFactorRequired m => m
  | .loginExc m => m
  | .connectionExc m => m
  | .invalidArgument m => m
  | .profileNotExists m => m
  | .instaloaderOther m => m
  | .otherExc m => m
  | .attributeError m => m

/-- Membership in the tuple
`(BadCredentialsException, TwoFactorAuthRequiredException, LoginException)`
caught by `InstagramLoader.login` (instaloader_api.py line 63). -/
def PyExc.isLoginCaught : PyExc → Bool
  | .badCredentials _ => true
  | .twoFactorRequired _ => true
  | .loginExc _ => true
  | _ => false

/-- Membership in the `InstaloaderException` hierarchy (caught by
`download_profile`'s second `except` clause). -/
def PyExc.isInstaloader : PyExc → Bool
  | .otherExc _ => false
  | .attributeError _ => false
  | _ => true

/-- Is this a `ProfileNotExistsException`? -/
def PyExc.isProfileNotExists : PyExc → Bool
  | .profileNotExists _ => true
  | _ => false

/-- The exception raised by every `loader.load_session_from_file(...)` call
(app.py line 36): `InstagramLoader` wraps `Instaloader` by composition and
never defines or forwards this method, so the attribute lookup itself
raises, deterministically, before anything external happens. -/
def loadAttrError : PyExc :=
  PyExc.attributeError
    "\x27InstagramLoader\x27 object has no attribute \x27load_session_from_file\x27"

/-- The exception raised by every `loader.save_session_to_file(...)` call
(app.py lines 44, 65, 87): likewise a nonexistent attribute of
`InstagramLoader`. -/
def saveAttrError : PyExc :=
  PyExc.attributeError
    "\x27InstagramLoader\x27 object has no attribute \x27save_session_to_file\x27"

/-- The relevant state of the shared `Instaloader` object's context:
its session cookies and the logged-in username
(`self.loader.context.username`). -/
structure Context where
  cookies : List (String × String)
  username : Option String
  deriving DecidableEq

/-- One cookie as returned by a `browser_cookie3` enumeration function. -/
structure Cookie where
  domain : String
  name : String
  value : String
  deriving DecidableEq

/-- External calls performed during a request, recorded as a trace so that
claims such as "never attempts network retrieval" and "without invoking
fresh password authentication" are statable. -/
inductive Event where
  /-- `self.loader.login(username, password)` — the external password
  authentication network call. -/
  | authCall (username password : String)
  /-- `supported_browsers[browser](cookie_file=...)` — the browser cookie
  enumeration. -/
  | browserExtractCall (browser : String)
  /-- `self.loader.test_login()` — the liveness probe. -/
  | probeCall
  /-- `Profile.from_username(...)` — profile resolution (a network call). -/
  | profileResolveCall (profileName : String)
  /-- `self.loader.download_profile(...)`. -/
  | profileDownloadCall (profileName : String)
  deriving DecidableEq

/-- Process-wide state: the `sessions/` directory (path ↦ serialized
context; the serialized blob is modelled as the `Context` it snapshots),
the shared loader context, the stderr/stdout prints, and the trace of
external calls. -/
structure ServerState where
  fs : List (String × Context)
  ctx : Context
  log : List String
  events : List Event
  deriving DecidableEq

/-- Look a path up in the modelled filesystem. -/
def fsLookup (fs : List (String × Context)) (p : String) : Option Context :=
  (fs.find? (fun e => e.1 == p)).map (fun e => e.2)

/-- Python dict assignment `d[k] = v`: overwrite if the key exists,
append otherwise. -/
def dictInsert (d : List (String × String)) (k v : String) :
    List (String × String) :=
  if d.any (fun p => p.1 == k) then
    d.map (fun p => if p.1 == k then (k, v) else p)
  else
    d ++ [(k, v)]

/-- `requests` cookie-jar update semantics used by
`self.loader.context.update_cookies(cookies)`: each new cookie overwrites
a same-named old one. -/
def updateCookies (base upd : List (String × String)) :
    List (String × String) :=
  upd.foldl (fun acc p => dictInsert acc p.1 p.2) base

/-- Is `pat` a contiguous sublist of `l`? (Python's `pat in s` on strings.) -/
def hasSubList (pat : List Char) : List Char → Bool
  | [] => pat.isEmpty
  | c :: rest => pat.isPrefixOf (c :: rest) || hasSubList pat rest

/-- Python `pat in s` for strings. -/
def strHasSub (pat s : String) : Bool := hasSubList pat.data s.data

/-- Python truthiness of an optional string field (`if not x` is taken
when the field is absent or the empty string). -/
def optTruthy : Option String → Bool
  | none => false
  | some s => s != ""

/-- The `download_profile` keyword flags, passed through unmodified. -/
structure DownloadFlags where
  download_posts : Bool
  download_stories : Bool
  download_highlights : Bool
  download_tagged : Bool
  download_reels : Bool
  download_igtv : Bool
  fast_update : Bool
  deriving DecidableEq

/-- Behaviour of the external collaborators at the interface boundary.
Each oracle returns either a result or the exception it raises. -/
structure Env where
  /-- Whether `import browser_cookie3` succeeded at module load time. -/
  bc3_library : Bool
  /-- Outcome of `Instaloader.login(username, password)` from the given
  context: the authenticated context, or an exception. -/
  extLogin : String → String → Context → Except PyExc Context
  /-- The cookie enumeration `supported_browsers[browser](cookie_file=·)`. -/
  browserEnum : String → Option String → Except PyExc (List Cookie)
  /-- `test_login()` on the given context: the recognised username (or
  `None`), or an exception. -/
  probe : Context → Except PyExc (Option String)
  /-- `Profile.from_username(context, name)`: succeeds or raises. -/
  profileLookup : String → Context → Except PyExc Unit
  /-- `Instaloader.download_profile(profile, **flags)`: succeeds or raises. -/
  profileDownloadRes : String → DownloadFlags → Context → Except PyExc Unit

/-- Result of a piece of Python code that can let an exception escape:
either a value or a propagated exception, in both cases with the state
reached by the time control left the code. -/
abbrev PyResult (α : Type) := Except (PyExc × ServerState) (α × ServerState)

/-- `InstagramLoader.login` (instaloader_api.py lines 49–65): forwards to
the external auth call; returns `False` on the three caught exception
classes, lets any other exception escape. -/
def IL_login (env : Env) (s : ServerState) (username password : String) :
    PyResult Bool :=
  let s1 : ServerState :=
    { s with events := s.events ++ [Event.authCall username password] }
  match env.extLogin username password s.ctx with
  | Except.ok ctx2 => Except.ok (true, { s1 with ctx := ctx2 })
  | Except.error e =>
    if e.isLoginCaught then
      Except.ok (false,
        { s1 with log := s1.log ++ ["Login failed: " ++ e.str] })
    else
      Except.error (e, s1)

/-- The allow-list keying `supported_browsers`
(instaloader_api.py lines 108–119). -/
def supported_browsers : List String :=
  ["brave", "chrome", "chromium", "edge", "firefox", "librewolf",
   "opera", "opera_gx", "safari", "vivaldi"]

/-- The loop of `_get_cookies_from_browser` (lines 124–128): keep cookies
whose domain mentions `instagram.com`, as a name ↦ value dict. -/
def filterInstagramCookies (cs : List Cookie) : List (String × String) :=
  cs.foldl
    (fun d c =>
      if strHasSub "instagram.com" c.domain then dictInsert d c.name c.value
      else d)
    []

/-- `InstagramLoader._get_cookies_from_browser` (lines 97–133): allow-list
check, cookie enumeration, domain filter, emptiness check. -/
def IL_get_cookies_from_browser (env : Env) (s : ServerState)
    (browser : String) (cookiefile : Option String) :
    PyResult (List (String × String)) :=
  if !(supported_browsers.contains browser) then
    Except.error (PyExc.invalidArgument ("Unsupported browser: " ++ browser), s)
  else
    let s1 : ServerState :=
      { s with events := s.events ++ [Event.browserExtractCall browser] }
    match env.browserEnum browser cookiefile with
    | Except.error e => Except.error (e, s1)
    | Except.ok browser_cookies =>
      let cookies := filterInstagramCookies browser_cookies
      if cookies.isEmpty then
        Except.error
          (PyExc.loginExc ("No Instagram cookies found in " ++ browser ++ "."),
           s1)
      else
        Except.ok (cookies, s1)

/-- `InstagramLoader.load_session_from_browser` (lines 67–95): guard on
`bc3_library`, then `try:` cookie extraction, `update_cookies` on the
shared context, liveness probe, and username assignment — with a
catch-all `except Exception`, so it never lets an exception escape. -/
def IL_load_session_from_browser (env : Env) (s : ServerState)
    (browser : String) (cookiefile : Option String) : Bool × ServerState :=
  if !env.bc3_library then
    (false,
     { s with log := s.log ++
        ["browser_cookie3 library is required to load cookies from browsers."] })
  else
    match IL_get_cookies_from_browser env s browser cookiefile with
    | Except.error (e, s1) =>
      (false, { s1 with log := s1.log ++ ["Failed to load cookies: " ++ e.str] })
    | Except.ok (cookies, s1) =>
      let ctx2 : Context :=
        { s1.ctx with cookies := updateCookies s1.ctx.cookies cookies }
      let s2 : ServerState :=
        { s1 with ctx := ctx2, events := s1.events ++ [Event.probeCall] }
      match env.probe ctx2 with
      | Except.error e =>
        (false, { s2 with log := s2.log ++ ["Failed to load cookies: " ++ e.str] })
      | Except.ok uOpt =>
        if optTruthy uOpt then
          let u := uOpt.getD ""
          (true,
           { s2 with
              ctx := { ctx2 with username := some u },
              log := s2.log ++
                ["Logged in as " ++ u ++ " using cookies from " ++ browser ++ "."] })
        else
          (false, { s2 with log := s2.log ++ ["Failed to log in using cookies."] })

/-- `InstagramLoader.download_profile` (lines 135–180): resolve the profile
(a network call), then download; `ProfileNotExistsException` and any other
`InstaloaderException` become `False`, anything else escapes. -/
def IL_download_profile (env : Env) (s : ServerState) (profile_name : String)
    (flags : DownloadFlags) : PyResult Bool :=
  let s1 : ServerState :=
    { s with events := s.events ++ [Event.profileResolveCall profile_name] }
  match env.profileLookup profile_name s.ctx with
  | Except.error e =>
    if e.isProfileNotExists then
      Except.ok (false,
        { s1 with log := s1.log ++ ["Profile not found: " ++ e.str] })
    else if e.isInstaloader then
      Except.ok (false,
        { s1 with log := s1.log ++ ["Failed to download profile: " ++ e.str] })
    else
      Except.error (e, s1)
  | Except.ok _ =>
    let s2 : ServerState :=
      { s1 with events := s1.events ++ [Event.profileDownloadCall profile_name] }
    match env.profileDownloadRes profile_name flags s1.ctx with
    | Except.error e =>
      if e.isProfileNotExists then
        Except.ok (false,
          { s2 with log := s2.log ++ ["Profile not found: " ++ e.str] })
      else if e.isInstaloader then
        Except.ok (false,
          { s2 with log := s2.log ++ ["Failed to download profile: " ++ e.str] })
      else
        Except.error (e, s2)
    | Except.ok _ => Except.ok (true, s2)

/-- Python `os.path.isabs` on POSIX for the strings at hand: does the
path begin with a slash? -/
def pyIsAbs (p : String) : Bool :=
  match p.data with
  | [] => false
  | c :: _ => c == '/'

/-- `get_session_file` (app.py lines 14–18):
`os.path.join(SESSION_DIR, f"{username}.session")` with `SESSION_DIR =
"sessions"`.  `os.path.join` discards the first component when the second
is absolute, i.e. starts with a slash. -/
def get_session_file (username : String) : String :=
  let tail := username ++ ".session"
  if pyIsAbs tail then tail else "sessions/" ++ tail

/-- A Flask JSON response: HTTP status code plus the
`{"status": ..., "message": ...}` body. -/
structure HttpResponse where
  code : Nat
  status : String
  message : String
  deriving DecidableEq

/-- Body of a `/login` or `/reattempt_login` request. -/
structure LoginRequest where
  username : Option String
  password : Option String
  deriving DecidableEq

/-- Body of a `/load_session_from_browser` request. -/
structure BrowserRequest where
  username : Option String
  browser : Option String
  cookiefile : Option String
  deriving DecidableEq

/-- Body of a `/download_profile` request (absent flags get the
`data.get(key, default)` defaults). -/
structure ProfileRequest where
  profile_name : Option String
  download_posts : Option Bool
  download_stories : Option Bool
  download_highlights : Option Bool
  download_tagged : Option Bool
  download_reels : Option Bool
  download_igtv : Option Bool
  fast_update : Option Bool
  deriving DecidableEq

/-- The fresh-login tail shared by the `login` handler's two paths
(app.py lines 41–47): `loader.login`, then — on success — the unguarded
`loader.save_session_to_file(session_file)` call.  `InstagramLoader`
defines no such method, so that attribute lookup raises `AttributeError`
uncaught: the 200 branch of the source text is unreachable, and no
session file is ever written. -/
def app_login_fresh (env : Env) (s : ServerState)
    (username password session_file : String) : PyResult HttpResponse :=
  match IL_login env s username password with
  | Except.error es => Except.error es
  | Except.ok (true, s1) => Except.error (saveAttrError, s1)
  | Except.ok (false, s1) =>
    Except.ok
      ({ code := 401, status := "failed",
         message := "Login failed. Check your credentials." }, s1)

/-- The `/login` handler (app.py lines 21–47): field check, then the
stored-session reuse attempt guarded by `os.path.exists` and a catch-all
(which always fails with `AttributeError`, `InstagramLoader` having no
`load_session_from_file`), then fresh login. -/
def app_login (env : Env) (s : ServerState) (req : LoginRequest) :
    PyResult HttpResponse :=
  if !optTruthy req.username || !optTruthy req.password then
    Except.ok
      ({ code := 400, status := "failed",
         message := "Username and password are required." }, s)
  else
    let username := req.username.getD ""
    let password := req.password.getD ""
    let session_file := get_session_file username
    match fsLookup s.fs session_file with
    | some _ =>
      -- `loader.load_session_from_file(username, session_file)` raises
      -- `AttributeError` (nonexistent attribute) before anything external
      -- happens; the catch-all at app.py line 38 prints it and falls
      -- through, so stored-session reuse can never succeed.
      app_login_fresh env
        { s with log := s.log ++
           ["Failed to load session: " ++ loadAttrError.str] }
        username password session_file
    | none => app_login_fresh env s username password session_file

/-- The `/reattempt_login` handler (app.py lines 50–68): field check, then
always a fresh login; on success the unguarded call of the nonexistent
`save_session_to_file` raises. -/
def app_reattempt_login (env : Env) (s : ServerState) (req : LoginRequest) :
    PyResult HttpResponse :=
  if !optTruthy req.username || !optTruthy req.password then
    Except.ok
      ({ code := 400, status := "failed",
         message := "Username and password are required." }, s)
  else
    let username := req.username.getD ""
    let password := req.password.getD ""
    match IL_login env s username password with
    | Except.error es => Except.error es
    | Except.ok (true, s1) =>
      -- the unguarded `loader.save_session_to_file(session_file)` at
      -- app.py line 65 raises `AttributeError`: no 200, nothing written.
      Except.error (saveAttrError, s1)
    | Except.ok (false, s1) =>
      Except.ok
        ({ code := 401, status := "failed",
           message := "Re-login failed. Check your credentials." }, s1)

/-- The `/load_session_from_browser` handler (app.py lines 71–90): field
check, cookie import, then — on success — the unguarded call of the
nonexistent `save_session_to_file` (its intended path would have been
derived from the *caller-supplied* username), which raises. -/
def app_load_session_from_browser (env : Env) (s : ServerState)
    (req : BrowserRequest) : PyResult HttpResponse :=
  if !optTruthy req.username || !optTruthy req.browser then
    Except.ok
      ({ code := 400, status := "failed",
         message := "Username and browser name are required." }, s)
  else
    let username := req.username.getD ""
    let browser := req.browser.getD ""
    match IL_load_session_from_browser env s browser req.cookiefile with
    | (true, s1) =>
      -- the unguarded `loader.save_session_to_file(session_file)` at
      -- app.py line 87 raises `AttributeError`: no 200, nothing persisted.
      Except.error (saveAttrError, s1)
    | (false, s1) =>
      Except.ok
        ({ code := 400, status := "failed",
           message := "Failed to load session from browser." }, s1)

/-- The `data.get(key, default)` defaults of the `/download_profile`
handler: `download_posts` defaults to `True`, the rest to `False`. -/
def flagsOf (req : ProfileRequest) : DownloadFlags :=
  { download_posts := req.download_posts.getD true
    download_stories := req.download_stories.getD false
    download_highlights := req.download_highlights.getD false
    download_tagged := req.download_tagged.getD false
    download_reels := req.download_reels.getD false
    download_igtv := req.download_igtv.getD false
    fast_update := req.fast_update.getD false }

/-- The `/download_profile` handler (app.py lines 93–123): field check with
flag defaults, then the dispatcher call, whose uncaught exceptions
propagate. -/
def app_download_profile (env : Env) (s : ServerState) (req : ProfileRequest) :
    PyResult HttpResponse :=
  let profile_name := req.profile_name.getD ""
  let flags := flagsOf req
  if !optTruthy req.profile_name then
    Except.ok
      ({ code := 400, status := "failed", message := "Profile name is required." }, s)
  else
    match IL_download_profile env s profile_name flags with
    | Except.error es => Except.error es
    | Except.ok (true, s1) =>
      Except.ok
        ({ code := 200, status := "success",
           message := "Downloaded content from " ++ profile_name ++ "." }, s1)
    | Except.ok (false, s1) =>
      Except.ok
        ({ code := 400, status := "failed",
           message := "Failed to download content from " ++ profile_name ++ "." }, s1)

/-- The state in which a piece of code left the process, whether it
returned a value or raised. -/
def resStateP {α : Type} : PyResult α → ServerState
  | Except.ok (_, s) => s
  | Except.error (_, s) => s

/-- The state in which a request left the process, whether it returned a
response or died with a traceback. -/
def resState : PyResult HttpResponse → ServerState
  | Except.ok (_, s) => s
  | Except.error (_, s) => s

/-- The JSON response, if the handler produced one. -/
def respOf : PyResult HttpResponse → Option HttpResponse
  | Except.ok (r, _) => some r
  | Except.error _ => none

/-- Did the handler return a response (`true`) or let an exception escape
into Flask (`false`)? -/
def isOkResult (r : PyResult HttpResponse) : Bool :=
  match r with
  | Except.ok _ => true
  | Except.error _ => false

/-- The HTTP status code of the handler result, if a response was produced. -/
def codeOf (r : PyResult HttpResponse) : Option Nat :=
  (respOf r).map (fun x => x.code)

/-- The freshly initialised loader context (`Instaloader()` before any
authentication). -/
def ctx0 : Context := { cookies := [], username := none }

/-- The process state right after server start: empty `sessions/`
directory, fresh context, nothing logged. -/
def s0 : ServerState := { fs := [], ctx := ctx0, log := [], events := [] }

/-- A benign collaborator behaviour used to instantiate theorems on
concrete runs: every external call succeeds. -/
def env0 : Env where
  bc3_library := true
  extLogin := fun u _ c => Except.ok { c with username := some u }
  browserEnum := fun _ _ => Except.ok []
  probe := fun _ => Except.ok none
  profileLookup := fun _ _ => Except.ok ()
  profileDownloadRes := fun _ _ _ => Except.ok ()

/-- Collaborator behaviour in which the browser holds one Instagram cookie
and the liveness probe recognises the cookies as belonging to `bob`. -/
def env_probeBob : Env :=
  { env0 with
    browserEnum := fun _ _ =>
      Except.ok [{ domain := "www.instagram.com", name := "sessionid", value := "X" }],
    probe := fun _ => Except.ok (some "bob") }

/-- Collaborator behaviour in which the browser holds one Instagram cookie
but the liveness probe reports no identity. -/
def env_probeNone : Env :=
  { env0 with
    browserEnum := fun _ _ =>
      Except.ok [{ domain := "www.instagram.com", name := "sessionid", value := "X" }] }

/-- Collaborator behaviour in which the auth call raises a
`ConnectionException`. -/
def env_connRefused : Env :=
  { env0 with
    extLogin := fun _ _ _ => Except.error (PyExc.connectionExc "connection refused") }

/-- A plain `/download_profile` request for `bob` with no flags supplied. -/
def reqBob : ProfileRequest :=
  { profile_name := some "bob", download_posts := none, download_stories := none,
    download_highlights := none, download_tagged := none, download_reels := none,
    download_igtv := none, fast_update := none }

/-- A process state in which a session file for `alice` is already stored. -/
def sAlice : ServerState :=
  { fs := [("sessions/alice.session", ctx0)], ctx := ctx0, log := [], events := [] }

/-- C9: a `/login` or `/reattempt_login` request with a missing or empty
`username` or `password` field gets HTTP 400 with status `"failed"` and the
field-requirement message, and the process state — session store,
context, log, trace — is returned exactly as it was: the check precedes
every identity or content operation. -/
theorem missing_fields_fail_fast (env : Env) (s : ServerState)
    (req : LoginRequest)
    (h : optTruthy req.username = false ∨ optTruthy req.password = false) :
    app_login env s req =
      Except.ok
        ({ code := 400, status := "failed",
           message := "Username and password are required." }, s) ∧
    app_reattempt_login env s req =
      Except.ok
        ({ code := 400, status := "failed",
           message := "Username and password are required." }, s) := by
  unfold app_login app_reattempt_login
  rcases h with h | h <;> simp [h]

/-- Witness for `missing_fields_fail_fast` at a request with no username. -/
theorem missing_fields_fail_fast_witness :
    optTruthy (none : Option String) = false ∧
    app_login env0 s0 { username := none, password := some "pw" } =
      Except.ok
        ({ code := 400, status := "failed",
           message := "Username and password are required." }, s0) :=
  ⟨rfl,
   (missing_fields_fail_fast env0 s0
     { username := none, password := some "pw" } (Or.inl rfl)).1⟩

/-- C10: when `browser_cookie3` failed to import, `load_session_from_browser`
returns `False` having only printed a message — no cookie read, no probe, no
context change — and the `/load_session_from_browser` endpoint answers 400
for every request body. -/
theorem bc3_missing_deterministic_400 (env : Env) (s : ServerState)
    (h : env.bc3_library = false) :
    (∀ browser cookiefile,
      IL_load_session_from_browser env s browser cookiefile =
        (false,
         { s with log := s.log ++
            ["browser_cookie3 library is required to load cookies from browsers."] })) ∧
    (∀ req : BrowserRequest,
      codeOf (app_load_session_from_browser env s req) = some 400 ∧
      (resState (app_load_session_from_browser env s req)).ctx = s.ctx ∧
      (resState (app_load_session_from_browser env s req)).fs = s.fs ∧
      (resState (app_load_session_from_browser env s req)).events = s.events) := by
  constructor
  · intro browser cookiefile
    unfold IL_load_session_from_browser
    simp [h]
  · intro req
    unfold app_load_session_from_browser IL_load_session_from_browser
    by_cases h1 : (!optTruthy req.username || !optTruthy req.browser) = true
    · simp [h1, codeOf, respOf, resState]
    · simp [h1, h, codeOf, respOf, resState]

/-- Witness for `bc3_missing_deterministic_400` with `bc3_library = false`. -/
theorem bc3_missing_deterministic_400_witness :
    ({ env0 with bc3_library := false } : Env).bc3_library = false ∧
    codeOf (app_load_session_from_browser { env0 with bc3_library := false } s0
      { username := some "alice", browser := some "chrome", cookiefile := none }) =
      some 400 :=
  ⟨rfl,
   ((bc3_missing_deterministic_400 { env0 with bc3_library := false } s0 rfl).2
     { username := some "alice", browser := some "chrome", cookiefile := none }).1⟩

/-- Classification of the fresh-login tail: an auth failure in the caught
classes yields the 401 response; an auth success dies at the nonexistent
`save_session_to_file` attribute. -/
theorem app_login_fresh_classified (env : Env)
    (hlogin : ∀ u p c e, env.extLogin u p c = Except.error e →
      e.isLoginCaught = true)
    (s : ServerState) (u p f : String) :
    isOkResult (app_login_fresh env s u p f) = true ∨
    ∃ s1, app_login_fresh env s u p f = Except.error (saveAttrError, s1) := by
  unfold app_login_fresh IL_login
  cases henv : env.extLogin u p s.ctx with
  | ok c =>
    right
    exact ⟨{ s with
      ctx := c, events := s.events ++ [Event.authCall u p] }, by simp [henv]⟩
  | error e => left; simp [henv, hlogin u p s.ctx e henv, isOkResult]

/-- C1 counterexample: the claim says no exception ever reaches the Flask
layer, but a `/login` request whose password the external auth call
accepts dies at the unguarded `loader.save_session_to_file` (app.py line
44) — a nonexistent attribute of `InstagramLoader` — with an uncaught
`AttributeError` instead of any JSON response. -/
theorem login_success_crashes_cx :
    app_login env0 s0 { username := some "alice", password := some "pw" } =
      Except.error (saveAttrError,
        { fs := [], ctx := { cookies := [], username := some "alice" },
          log := [], events := [Event.authCall "alice" "pw"] }) ∧
    isOkResult (app_login env0 s0
      { username := some "alice", password := some "pw" }) = false := by
  exact ⟨rfl, rfl⟩

/-- C1 (amended): errors are converted to a success flag plus message only
for the exception classes each call site catches, and only on failure
paths: provided the auth call raises nothing outside the caught tuple,
each of the three handlers either returns a JSON status/message response
or raises the `AttributeError` from the nonexistent
`loader.save_session_to_file` — which happens precisely when
authentication (or the cookie import) succeeds, so every success path
crashes into the Flask layer instead of answering 200. -/
theorem handlers_response_or_save_attribute_error (env : Env) (s : ServerState)
    (hlogin : ∀ u p c e, env.extLogin u p c = Except.error e →
      e.isLoginCaught = true) :
    (∀ req, isOkResult (app_login env s req) = true ∨
      ∃ s1, app_login env s req = Except.error (saveAttrError, s1)) ∧
    (∀ req, isOkResult (app_reattempt_login env s req) = true ∨
      ∃ s1, app_reattempt_login env s req = Except.error (saveAttrError, s1)) ∧
    (∀ req, isOkResult (app_load_session_from_browser env s req) = true ∨
      ∃ s1, app_load_session_from_browser env s req =
        Except.error (saveAttrError, s1)) ∧
    (∀ u p ctx2, u ≠ "" → p ≠ "" →
      env.extLogin u p s.ctx = Except.ok ctx2 →
      ∃ s1, app_login env s { username := some u, password := some p } =
        Except.error (saveAttrError, s1)) := by
  refine ⟨?_, ?_, ?_, ?_⟩
  · intro req
    unfold app_login
    by_cases h1 : (!optTruthy req.username || !optTruthy req.password) = true
    · left; simp [h1, isOkResult]
    · simp only [h1, if_false, if_neg]
      cases hfs : fsLookup s.fs (get_session_file (req.username.getD "")) with
      | none =>
        exact app_login_fresh_classified env hlogin s (req.username.getD "")
          (req.password.getD "") (get_session_file (req.username.getD ""))
      | some blob =>
        exact app_login_fresh_classified env hlogin
          { s with log := s.log ++
             ["Failed to load session: " ++ loadAttrError.str] }
          (req.username.getD "") (req.password.getD "")
          (get_session_file (req.username.getD ""))
  · intro req
    unfold app_reattempt_login IL_login
    by_cases h1 : (!optTruthy req.username || !optTruthy req.password) = true
    · left; simp [h1, isOkResult]
    · cases henv : env.extLogin (req.username.getD "") (req.password.getD "") s.ctx with
      | ok c =>
        right
        exact ⟨{ s with
          ctx := c,
          events := s.events ++
            [Event.authCall (req.username.getD "") (req.password.getD "")] },
          by simp [h1, henv]⟩
      | error e => left; simp [h1, henv, hlogin _ _ _ e henv, isOkResult]
  · intro req
    unfold app_load_session_from_browser
    by_cases h1 : (!optTruthy req.username || !optTruthy req.browser) = true
    · left; simp [h1, isOkResult]
    · cases hIL : IL_load_session_from_browser env s (req.browser.getD "")
        req.cookiefile with
      | mk b s1 =>
        cases b
        · left; simp [h1, hIL, isOkResult]
        · right; exact ⟨s1, by simp [h1, hIL]⟩
  · intro u p ctx2 hu hp hauth
    unfold app_login
    have h1 : (!optTruthy (some u) || !optTruthy (some p)) = false := by
      simp [optTruthy, hu, hp]
    simp only [h1, Bool.false_eq_true, if_false, if_neg, Option.getD_some]
    cases hfs : fsLookup s.fs (get_session_file u) with
    | none =>
      refine ⟨{ s with
        ctx := ctx2,
        events := s.events ++ [Event.authCall u p] }, ?_⟩
      unfold app_login_fresh IL_login
      simp [hauth]
    | some blob =>
      refine ⟨{ s with
        ctx := ctx2,
        log := s.log ++ ["Failed to load session: " ++ loadAttrError.str],
        events := s.events ++ [Event.authCall u p] }, ?_⟩
      unfold app_login_fresh IL_login
      simp [hauth]

/-- Witness for `handlers_response_or_save_attribute_error` under the
benign environment. -/
theorem handlers_response_or_save_attribute_error_witness :
    isOkResult (app_login env0 s0
      { username := some "alice", password := some "pw" }) = true ∨
    ∃ s1, app_login env0 s0
      { username := some "alice", password := some "pw" } =
        Except.error (saveAttrError, s1) :=
  (handlers_response_or_save_attribute_error env0 s0
    (fun u p c e h => by simp [env0] at h)).1
    { username := some "alice", password := some "pw" }

/-- C6 counterexample: a `ConnectionException` raised by the external auth
call — an authentication-layer exception outside the caught tuple — is not
converted into a failure return: `InstagramLoader.login` lets it escape,
and the `/login` request dies with it. -/
theorem uncaught_auth_exception_cx :
    IL_login env_connRefused s0 "alice" "pw" =
      Except.error (PyExc.connectionExc "connection refused",
        { s0 with events := [Event.authCall "alice" "pw"] }) ∧
    isOkResult (app_login env_connRefused s0
      { username := some "alice", password := some "pw" }) = false := by
  constructor
  · rfl
  · rfl

/-- C6 (amended): `login`'s failure handling is exhaustive only over
`BadCredentialsException`, `TwoFactorAuthRequiredException` and
`LoginException` — these all collapse to the same `False` return (and the
same 401 response), distinguished only in the stderr log; any other
exception from the auth call (e.g. `ConnectionException`) propagates
out of the identity layer. -/
theorem login_exception_classification (env : Env) (s : ServerState)
    (u p : String) (hu : u ≠ "") (hp : p ≠ "")
    (hnofile : fsLookup s.fs (get_session_file u) = none) :
    (∀ e, env.extLogin u p s.ctx = Except.error e → e.isLoginCaught = true →
      app_login env s { username := some u, password := some p } =
        Except.ok
          ({ code := 401, status := "failed",
             message := "Login failed. Check your credentials." },
           { s with events := s.events ++ [Event.authCall u p],
                    log := s.log ++ ["Login failed: " ++ e.str] })) ∧
    (∀ e, env.extLogin u p s.ctx = Except.error e → e.isLoginCaught = false →
      app_login env s { username := some u, password := some p } =
        Except.error (e, { s with events := s.events ++ [Event.authCall u p] })) := by
  constructor
  · intro e he hc
    unfold app_login app_login_fresh IL_login
    simp [optTruthy, hu, hp, hnofile, he, hc]
  · intro e he hc
    unfold app_login app_login_fresh IL_login
    simp [optTruthy, hu, hp, hnofile, he, hc]

/-- Witness for `login_exception_classification`: bad credentials yield the
handled 401 response. -/
theorem login_exception_classification_witness :
    app_login { env0 with
        extLogin := fun _ _ _ =>
          Except.error (PyExc.badCredentials "Wrong password.") } s0
      { username := some "alice", password := some "pw" } =
      Except.ok
        ({ code := 401, status := "failed",
           message := "Login failed. Check your credentials." },
         { s0 with events := s0.events ++ [Event.authCall "alice" "pw"],
                   log := s0.log ++ ["Login failed: Wrong password."] }) :=
  (login_exception_classification
    { env0 with
      extLogin := fun _ _ _ =>
        Except.error (PyExc.badCredentials "Wrong password.") } s0
    "alice" "pw" (by decide) (by decide) rfl).1
    (PyExc.badCredentials "Wrong password.") rfl rfl

/-- The `/download_profile` handler performs no password authentication:
any auth event in its final trace was already there before the request. -/
theorem download_adds_no_auth_events (env : Env) (s : ServerState)
    (req : ProfileRequest) (u p : String)
    (h : Event.authCall u p ∈ (resState (app_download_profile env s req)).events) :
    Event.authCall u p ∈ s.events := by
  unfold app_download_profile IL_download_profile at h
  by_cases h1 : (!optTruthy req.profile_name) = true
  · simpa [h1, resState] using h
  · simp only [h1, if_false, if_neg] at h
    cases hL : env.profileLookup (req.profile_name.getD "") s.ctx with
    | error e =>
      by_cases h2 : e.isProfileNotExists = true
      · simpa [hL, h2, resState] using h
      · by_cases h3 : e.isInstaloader = true <;>
          simpa [hL, h2, h3, resState] using h
    | ok w =>
      cases hD : env.profileDownloadRes (req.profile_name.getD "")
          (flagsOf req) s.ctx with
      | error e =>
        by_cases h2 : e.isProfileNotExists = true
        · simpa [hL, hD, h2, resState] using h
        · by_cases h3 : e.isInstaloader = true <;>
            simpa [hL, hD, h2, h3, resState] using h
      | ok w2 => simpa [hL, hD, resState] using h

/-- C2: the claimed behaviour — accepted password ⇒ 200/success and a
session file persisted at `sessions/<u>.session`, reloadable later — is
the evident intent of app.py (its own comments read "Save the session to
a file" / "Attempt to load an existing session"), but the code cannot
exhibit it: the success path dies at the nonexistent
`loader.save_session_to_file` (app.py line 44) with `AttributeError`, so
no 200 is returned and no session file is ever created.  The theorem
evaluates the code at the failing input: `alice` with a password the
external auth call accepts and no stored session. -/
theorem fresh_login_crashes_at_save_bug :
    app_login env0 s0 { username := some "alice", password := some "correct" } =
      Except.error (saveAttrError,
        { fs := [], ctx := { cookies := [], username := some "alice" },
          log := [], events := [Event.authCall "alice" "correct"] }) ∧
    (resState (app_login env0 s0
      { username := some "alice", password := some "correct" })).fs = [] ∧
    fsLookup (resState (app_login env0 s0
      { username := some "alice", password := some "correct" })).fs
      (get_session_file "alice") = none := by
  exact ⟨rfl, rfl, rfl⟩

/-- C8: stored-session reuse can never succeed — `InstagramLoader` has no
`load_session_from_file`, so the reuse attempt at app.py line 36 raises
`AttributeError` every time, is caught at line 38, and falls through to
password authentication; the claimed 200-via-reuse (and the fall-through
persist-on-success, app.py line 44) are unreachable, although reuse is
plainly the code's intent ("Attempt to load an existing session").  The
theorem evaluates the code at the failing input: `alice` has a stored
session file, yet `/login` logs the load failure, still performs the
password auth call, and returns no response at all. -/
theorem stored_session_reuse_impossible_bug :
    (resState (app_login env0 sAlice
      { username := some "alice", password := some "pw" })).log =
      ["Failed to load session: " ++ loadAttrError.str] ∧
    Event.authCall "alice" "pw" ∈
      (resState (app_login env0 sAlice
        { username := some "alice", password := some "pw" })).events ∧
    isOkResult (app_login env0 sAlice
      { username := some "alice", password := some "pw" }) = false := by
  refine ⟨rfl, ?_, rfl⟩
  show Event.authCall "alice" "pw" ∈ [Event.authCall "alice" "pw"]
  simp

/-- C3 counterexample: with a fresh, never-authenticated context the
`/download_profile` handler does not fail with any authentication error —
it resolves the profile over the network (trace) and returns 200 when the
external retrieval succeeds. -/
theorem unauthenticated_download_succeeds_cx :
    s0.ctx.username = none ∧
    codeOf (app_download_profile env0 s0 reqBob) = some 200 ∧
    Event.profileResolveCall "bob" ∈
      (resState (app_download_profile env0 s0 reqBob)).events := by
  refine ⟨rfl, rfl, ?_⟩
  show Event.profileResolveCall "bob" ∈
    [Event.profileResolveCall "bob", Event.profileDownloadCall "bob"]
  simp

/-- The dispatcher always performs the profile-resolution network call,
whatever the context and collaborator behaviour. -/
theorem IL_download_profile_resolves (env : Env) (s : ServerState)
    (pn : String) (flags : DownloadFlags) :
    Event.profileResolveCall pn ∈
      (resStateP (IL_download_profile env s pn flags)).events := by
  unfold IL_download_profile
  cases hL : env.profileLookup pn s.ctx with
  | error e =>
    by_cases h2 : e.isProfileNotExists = true
    · simp [hL, h2, resStateP]
    · by_cases h3 : e.isInstaloader = true <;> simp [hL, h2, h3, resStateP]
  | ok w =>
    cases hD : env.profileDownloadRes pn flags s.ctx with
    | error e =>
      by_cases h2 : e.isProfileNotExists = true
      · simp [hL, hD, h2, resStateP]
      · by_cases h3 : e.isInstaloader = true <;> simp [hL, hD, h2, h3, resStateP]
    | ok w2 => simp [hL, hD, resStateP]

/-- C3 (amended): `download_profile` performs no authentication check at
all: whenever `profile_name` is non-empty it attempts the profile
resolution network call regardless of the identity state, and any response
it produces is one of the two retrieval messages — never an
authentication-classified failure. -/
theorem download_profile_no_auth_check (env : Env) (s : ServerState)
    (req : ProfileRequest) (name : String)
    (hname : req.profile_name = some name) (hn : name ≠ "") :
    Event.profileResolveCall name ∈
      (resState (app_download_profile env s req)).events ∧
    (∀ r s2, app_download_profile env s req = Except.ok (r, s2) →
      r.message = "Downloaded content from " ++ name ++ "." ∨
      r.message = "Failed to download content from " ++ name ++ ".") := by
  have hstate : resState (app_download_profile env s req) =
      resStateP (IL_download_profile env s name (flagsOf req)) := by
    unfold app_download_profile
    simp only [hname, Option.getD_some]
    have ht : (!optTruthy (some name)) = false := by simp [optTruthy, hn]
    simp only [ht, Bool.false_eq_true, if_false, if_neg]
    cases hIL : IL_download_profile env s name (flagsOf req) with
    | error es => simp [resState, resStateP]
    | ok bs =>
      cases bs with
      | mk b s1 => cases b <;> simp [resState, resStateP]
  constructor
  · rw [hstate]
    exact IL_download_profile_resolves env s name (flagsOf req)
  · intro r s2 hok
    unfold app_download_profile at hok
    simp only [hname, Option.getD_some] at hok
    have ht : (!optTruthy (some name)) = false := by simp [optTruthy, hn]
    simp only [ht, Bool.false_eq_true, if_false, if_neg] at hok
    cases hIL : IL_download_profile env s name (flagsOf req) with
    | error es => rw [hIL] at hok; exact absurd hok (by simp)
    | ok bs =>
      cases bs with
      | mk b s1 =>
        rw [hIL] at hok
        cases b
        · right
          have := hok
          simp only [Except.ok.injEq, Prod.mk.injEq] at this
          rw [← this.1]
        · left
          have := hok
          simp only [Except.ok.injEq, Prod.mk.injEq] at this
          rw [← this.1]

/-- Witness for `download_profile_no_auth_check` on the concrete `bob`
request. -/
theorem download_profile_no_auth_check_witness :
    Event.profileResolveCall "bob" ∈
      (resState (app_download_profile env0 s0 reqBob)).events :=
  (download_profile_no_auth_check env0 s0 reqBob "bob" rfl (by decide)).1

/-- C4 counterexample: caller says `alice`, the probe resolves the cookies
to `bob`, the import itself succeeds — and nothing at all is persisted
under either name: the handler dies at the nonexistent
`loader.save_session_to_file` (app.py line 87), leaving the session store
empty; only the in-memory context carries `bob`. -/
theorem browser_import_never_persists_cx :
    app_load_session_from_browser env_probeBob s0
        { username := some "alice", browser := some "firefox",
          cookiefile := none } =
      Except.error (saveAttrError,
        { fs := [],
          ctx := { cookies := [("sessionid", "X")], username := some "bob" },
          log := ["Logged in as bob using cookies from firefox."],
          events := [Event.browserExtractCall "firefox", Event.probeCall] }) ∧
    fsLookup (resState (app_load_session_from_browser env_probeBob s0
      { username := some "alice", browser := some "firefox",
        cookiefile := none })).fs "sessions/bob.session" = none := by
  exact ⟨rfl, rfl⟩

/-- C4 (amended): a successful browser-cookie import persists nothing at
all — the handler raises the `AttributeError` of the nonexistent
`save_session_to_file` (whose intended path, in the source text, is keyed
by the *caller-supplied* username, not the probe result), leaving the
session store untouched; the probe-resolved username appears only in the
in-memory context. -/
theorem browser_import_crashes_at_save (env : Env) (s : ServerState)
    (u_c browser : String) (cf : Option String) (cs : List Cookie) (ur : String)
    (hbc3 : env.bc3_library = true)
    (huc : u_c ≠ "") (hbne : browser ≠ "")
    (hbr : supported_browsers.contains browser = true)
    (henum : env.browserEnum browser cf = Except.ok cs)
    (hne : (filterInstagramCookies cs).isEmpty = false)
    (hprobe : env.probe { s.ctx with
        cookies := updateCookies s.ctx.cookies (filterInstagramCookies cs) } =
      Except.ok (some ur))
    (hur : ur ≠ "") :
    ∃ s2,
      app_load_session_from_browser env s
          { username := some u_c, browser := some browser, cookiefile := cf } =
        Except.error (saveAttrError, s2) ∧
      s2.ctx.username = some ur ∧
      s2.fs = s.fs := by
  refine
    ⟨{ fs := s.fs,
       ctx := { cookies := updateCookies s.ctx.cookies (filterInstagramCookies cs),
                username := some ur },
       log := s.log ++
         ["Logged in as " ++ ur ++ " using cookies from " ++ browser ++ "."],
       events := s.events ++
         [Event.browserExtractCall browser, Event.probeCall] }, ?_, rfl, rfl⟩
  have hmem : browser ∈ supported_browsers := by simpa using hbr
  unfold app_load_session_from_browser IL_load_session_from_browser
    IL_get_cookies_from_browser
  simp [optTruthy, huc, hbne, hbc3, hmem, henum, hne, hprobe, hur]

/-- Witness for `browser_import_crashes_at_save` on the concrete
`alice`/`bob` run. -/
theorem browser_import_crashes_at_save_witness :
    ∃ s2,
      app_load_session_from_browser env_probeBob s0
          { username := some "alice", browser := some "firefox",
            cookiefile := none } =
        Except.error (saveAttrError, s2) ∧
      s2.ctx.username = some "bob" ∧
      s2.fs = s0.fs :=
  browser_import_crashes_at_save env_probeBob s0 "alice" "firefox" none
    [{ domain := "www.instagram.com", name := "sessionid", value := "X" }]
    "bob" rfl (by decide) (by decide) (by decide) rfl rfl rfl (by decide)

/-- Cookie extraction touches neither the context nor the session store:
it only records the enumeration call. -/
theorem get_cookies_preserves_ctx (env : Env) (s : ServerState)
    (browser : String) (cf : Option String) :
    (resStateP (IL_get_cookies_from_browser env s browser cf)).ctx = s.ctx ∧
    (resStateP (IL_get_cookies_from_browser env s browser cf)).fs = s.fs := by
  unfold IL_get_cookies_from_browser
  by_cases hb : supported_browsers.contains browser = true
  · simp only [hb, Bool.not_true, Bool.false_eq_true, if_false, if_neg]
    cases he : env.browserEnum browser cf with
    | error e => simp [he, resStateP]
    | ok cs =>
      by_cases hne : (filterInstagramCookies cs).isEmpty = true <;>
        simp [he, hne, resStateP]
  · have hb2 : browser ∉ supported_browsers := by
      intro hmem
      exact hb (by simpa using hmem)
    simp [hb2, resStateP]

/-- C5 counterexample: a browser-cookie import whose liveness probe reports
no identity returns `False` — a failed operation — yet the shared context
has been mutated: the freshly extracted cookies were installed before the
probe ran. -/
theorem probe_failure_mutates_context_cx :
    (IL_load_session_from_browser env_probeNone s0 "firefox" none).1 = false ∧
    (IL_load_session_from_browser env_probeNone s0 "firefox" none).2.ctx.cookies =
      [("sessionid", "X")] ∧
    s0.ctx.cookies = [] := by
  refine ⟨rfl, rfl, rfl⟩

/-- C5 (amended): a browser-cookie import that fails *during extraction*
(unsupported browser, enumeration error, no Instagram cookies) leaves the
shared context exactly as it was; but one that fails at the *liveness
probe* (after `update_cookies`) leaves the extracted cookies installed in
the shared context — only `username` keeps its prior value. -/
theorem failed_import_context_effects (env : Env) (s : ServerState)
    (browser : String) (cf : Option String)
    (hbc3 : env.bc3_library = true) :
    (∀ e s1, IL_get_cookies_from_browser env s browser cf =
        Except.error (e, s1) →
      (IL_load_session_from_browser env s browser cf).1 = false ∧
      (IL_load_session_from_browser env s browser cf).2.ctx = s.ctx) ∧
    (∀ cookies s1, IL_get_cookies_from_browser env s browser cf =
        Except.ok (cookies, s1) →
      env.probe { s.ctx with
        cookies := updateCookies s.ctx.cookies cookies } = Except.ok none →
      (IL_load_session_from_browser env s browser cf).1 = false ∧
      (IL_load_session_from_browser env s browser cf).2.ctx =
        { s.ctx with cookies := updateCookies s.ctx.cookies cookies }) := by
  constructor
  · intro e s1 herr
    have hctx : s1.ctx = s.ctx := by
      have := (get_cookies_preserves_ctx env s browser cf).1
      rw [herr] at this
      simpa [resStateP] using this
    unfold IL_load_session_from_browser
    simp [hbc3, herr, hctx]
  · intro cookies s1 hok hprobe
    have hctx : s1.ctx = s.ctx := by
      have := (get_cookies_preserves_ctx env s browser cf).1
      rw [hok] at this
      simpa [resStateP] using this
    unfold IL_load_session_from_browser
    simp [hbc3, hok, hctx, hprobe, optTruthy]

/-- Witness for `failed_import_context_effects`: concrete probe failure
after a successful extraction. -/
theorem failed_import_context_effects_witness :
    (IL_load_session_from_browser env_probeNone s0 "firefox" none).1 = false ∧
    (IL_load_session_from_browser env_probeNone s0 "firefox" none).2.ctx =
      { s0.ctx with
         cookies := updateCookies s0.ctx.cookies
           (filterInstagramCookies
             [{ domain := "www.instagram.com", name := "sessionid",
                value := "X" }]) } :=
  (failed_import_context_effects env_probeNone s0 "firefox" none rfl).2
    (filterInstagramCookies
      [{ domain := "www.instagram.com", name := "sessionid", value := "X" }])
    { s0 with events := s0.events ++ [Event.browserExtractCall "firefox"] }
    (by rfl) (by rfl)

/-- With `browser_cookie3` available and an allow-listed browser name, the
cookie import always invokes the browser's extraction routine, whatever
the outcome. -/
theorem IL_browser_extract_event (env : Env) (s : ServerState)
    (browser : String) (cf : Option String)
    (hbc3 : env.bc3_library = true) (hmem : browser ∈ supported_browsers) :
    Event.browserExtractCall browser ∈
      (IL_load_session_from_browser env s browser cf).2.events := by
  unfold IL_load_session_from_browser IL_get_cookies_from_browser
  cases he : env.browserEnum browser cf with
  | error e => simp [hbc3, hmem, he]
  | ok cs =>
    by_cases hne : (filterInstagramCookies cs).isEmpty = true
    · simp [hbc3, hmem, he, hne]
    · simp [hbc3, hmem, he, hne]
      cases hp : env.probe
          (Context.mk (updateCookies s.ctx.cookies (filterInstagramCookies cs))
            s.ctx.username) with
      | error e => simp [hp]
      | ok uOpt =>
        by_cases ht : optTruthy uOpt = true <;> simp [hp, ht]

/-- C7 counterexample: the 400 answer for an unsupported browser name
carries the same generic body as the 400 answer for a liveness-probe
failure on a supported browser — the HTTP response is not
`UnsupportedBrowser`-classified. -/
theorem unsupported_browser_generic_message_cx :
    respOf (app_load_session_from_browser env0 s0
      { username := some "alice", browser := some "netscape",
        cookiefile := some "cookies.txt" }) =
      some { code := 400, status := "failed",
             message := "Failed to load session from browser." } ∧
    respOf (app_load_session_from_browser env_probeNone s0
      { username := some "alice", browser := some "firefox",
        cookiefile := none }) =
      some { code := 400, status := "failed",
             message := "Failed to load session from browser." } := by
  refine ⟨rfl, rfl⟩

/-- C7 (amended): with `browser_cookie3` importable, a request naming a
browser outside the allow-list gets HTTP 400 — with the generic import
failure body, the `UnsupportedBrowser` classification appearing only in
the stderr log — without touching context, store, or any extraction
routine, regardless of the cookie-file field; a request naming an
allow-listed browser always invokes that browser's extraction routine. -/
theorem unsupported_browser_rejected (env : Env) (s : ServerState)
    (u browser : String) (cf : Option String)
    (hbc3 : env.bc3_library = true) (hu : u ≠ "") (hb : browser ≠ "") :
    (supported_browsers.contains browser = false →
      app_load_session_from_browser env s
          { username := some u, browser := some browser, cookiefile := cf } =
        Except.ok
          ({ code := 400, status := "failed",
             message := "Failed to load session from browser." },
           { s with log := s.log ++
              ["Failed to load cookies: " ++
                ("Unsupported browser: " ++ browser)] })) ∧
    (supported_browsers.contains browser = true →
      Event.browserExtractCall browser ∈
        (resState (app_load_session_from_browser env s
          { username := some u, browser := some browser,
            cookiefile := cf })).events) := by
  constructor
  · intro hnot
    have hb2 : browser ∉ supported_browsers := by
      intro hmem
      have hc : supported_browsers.contains browser = true := by simpa using hmem
      rw [hc] at hnot
      cases hnot
    unfold app_load_session_from_browser IL_load_session_from_browser
      IL_get_cookies_from_browser
    simp [optTruthy, hu, hb, hbc3, hb2, PyExc.str]
  · intro hyes
    have hmem : browser ∈ supported_browsers := by simpa using hyes
    have hIL := IL_browser_extract_event env s browser cf hbc3 hmem
    unfold app_load_session_from_browser
    have ht : (!optTruthy (some u) || !optTruthy (some browser)) = false := by
      simp [optTruthy, hu, hb]
    simp only [ht, Bool.false_eq_true, if_false, if_neg, Option.getD_some]
    cases hres : IL_load_session_from_browser env s browser cf with
    | mk b s1 =>
      rw [hres] at hIL
      have hIL2 : Event.browserExtractCall browser ∈ s1.events := by
        simpa using hIL
      cases b
      · simpa [resState] using hIL2
      · simpa [resState] using hIL2

/-- Witness for `unsupported_browser_rejected` at the concrete unsupported
name `netscape`. -/
theorem unsupported_browser_rejected_witness :
    app_load_session_from_browser env0 s0
        { username := some "alice", browser := some "netscape",
          cookiefile := some "cookies.txt" } =
      Except.ok
        ({ code := 400, status := "failed",
           message := "Failed to load session from browser." },
         { s0 with log := s0.log ++
            ["Failed to load cookies: " ++
              ("Unsupported browser: " ++ "netscape")] }) :=
  (unsupported_browser_rejected env0 s0 "alice" "netscape" (some "cookies.txt")
    rfl (by decide) (by decide)).1 (by decide)
